import Mathlib

/-!
Shallow embedding of `src/backend/app.py` (a Flask transcription-job service)
for checking the natural-language specification against the code.

Modelling conventions:
* `datetime` values are modelled as integers counting hours (`Int`); the
  24-hour TTL `timedelta(hours=24)` becomes `+ 24`.
* Python dicts used as caches are modelled as association lists where an
  insert prepends and a lookup takes the first match (last write wins, as in
  a dict overwrite).
* Python's implicit `return None` (falling off the end of a function) and
  `Optional` values are modelled with `Option`.
* Randomness (`random.choice`, `random.uniform`) and the fallibility of the
  stubbed external collaborators (the slow DB lookup, the JSON round-trip in
  the mock classifier, the per-step `time.sleep`) are modelled as explicit
  environment/oracle parameters, one draw per call site.
* Python strings are sequences of code points; string helpers are modelled
  over the character list of the Lean string: `w in s` by `pyIn`,
  `str.lower` by `pyLower`, `str.strip` by `pyStrip`, `s[:100]` by
  `pyTake s 100`.
-/

/-- Job status constants (`class JobStatus`, app.py lines 26-31). The source
uses the strings "pending" / "processing" / "completed" / "failed"; we model
them as an enumeration. -/
inductive JobStatus where
  | pending
  | processing
  | completed
  | failed
deriving DecidableEq, Repr

/-- Categorization result (`class TranscriptionCategories`, app.py lines
34-38).  The declared TypedDict has the three fields `categories`,
`sentiment`, `confidence`; the dicts actually returned by
`mock_llm_categorization` may additionally carry a `model` key and/or an
`error` key, modelled here as `Option` fields (absent key = `none`). -/
structure TranscriptionCategories where
  categories : List String
  sentiment : String
  confidence : ℚ
  model : Option String
  error : Option String
deriving DecidableEq, Repr

/-- Python's substring prefix test on character lists. -/
def listPrefixOf : List Char → List Char → Bool
  | [], _ => true
  | _ :: _, [] => false
  | a :: as, b :: bs => a = b && listPrefixOf as bs

/-- Python's substring containment on character lists. -/
def listInfixOf (w : List Char) : List Char → Bool
  | [] => listPrefixOf w []
  | b :: bs => listPrefixOf w (b :: bs) || listInfixOf w bs

/-- Python's `w in s` for strings (substring containment). -/
def pyIn (w s : String) : Bool := listInfixOf w.data s.data

/-- Python's `str.lower()` (character-wise lowering). -/
def pyLower (s : String) : String := String.mk (s.data.map Char.toLower)

/-- Python's slice `s[:n]` (the first n code points). -/
def pyTake (s : String) (n : Nat) : String := String.mk (s.data.take n)

/-- Python's `str.strip()` (drop leading and trailing whitespace). -/
def pyStrip (s : String) : String :=
  String.mk (((s.data.dropWhile Char.isWhitespace).reverse.dropWhile
    Char.isWhitespace).reverse)

/-- Python's `any(word in text.lower() for word in words)` pattern used by
both mock classifiers (app.py lines 227, 230, 233, 255, 258, 261). -/
def anyKeyword (text : String) (words : List String) : Bool :=
  words.any (fun w => pyIn w (pyLower text))

/-- Category list built by the `provider == "openai"` branch of
`mock_llm_categorization` (app.py lines 223-237). -/
def openaiCategories (text : String) : List String :=
  let c1 := if anyKeyword text ["car", "muscle", "power", "vehicle"] then ["Automotive"] else []
  let c2 := if anyKeyword text ["eagle", "bird", "sky", "soar", "creature"] then ["Wildlife"] else []
  let c3 := if anyKeyword text ["sea", "diving", "ocean", "coral", "depths"] then ["Ocean/Marine"] else []
  let cats := c1 ++ c2 ++ c3
  if cats = [] then ["General"] else cats

/-- Category list built by the `provider == "anthropic"` branch of
`mock_llm_categorization` (app.py lines 250-265). -/
def anthropicCategories (text : String) : List String :=
  let c1 := if anyKeyword text ["car", "vehicle", "drive", "road"] then ["Transportation"] else []
  let c2 := if anyKeyword text ["animal", "bird", "creature", "wildlife", "eagle"] then ["Animals & Wildlife"] else []
  let c3 := if anyKeyword text ["ocean", "sea", "water", "marine", "dive"] then ["Marine & Aquatic"] else []
  let cats := c1 ++ c2 ++ c3
  if cats = [] then ["Miscellaneous"] else cats

/-- Outcome of the JSON round-trip (`json.dumps` / `json.loads`) inside a
branch of `mock_llm_categorization`: it either succeeds, raises
`json.JSONDecodeError` (caught at app.py line 285), or raises some other
exception (caught at line 294, message recorded). -/
inductive ParseOutcome where
  | ok
  | jsonError
  | otherError (msg : String)
deriving DecidableEq, Repr

/-- Random draws and failure outcome consumed by one call of
`mock_llm_categorization`: the `random.choice` over sentiments/moods (app.py
lines 242, 271), the `round(random.uniform(...), 2)` confidence/certainty
(lines 243, 272), and the JSON round-trip outcome. -/
structure LLMEnv where
  sentiment : String
  confidence : ℚ
  parse : ParseOutcome
deriving DecidableEq, Repr

/-- The fixed fallback categorization produced by the exception handlers of
`mock_llm_categorization` (app.py lines 288-293 and 296-301). -/
def llmFallback (msg : String) : TranscriptionCategories :=
  { categories := ["General"], sentiment := "neutral", confidence := 1/2,
    model := none, error := some msg }

/-- Embedding of `mock_llm_categorization(text, provider)` (app.py lines
208-301).  If `provider` is neither "openai" nor "anthropic", control falls
through both branches and off the end of the `try`, so the Python function
implicitly returns `None`; the `except` clauses map a raised parse error to
the fixed fallback carrying an `error` tag. -/
def mock_llm_categorization (env : LLMEnv) (text provider : String) :
    Option TranscriptionCategories :=
  if provider = "openai" then
    match env.parse with
    | ParseOutcome.ok =>
        some { categories := openaiCategories text, sentiment := env.sentiment,
               confidence := env.confidence, model := some "gpt-4", error := none }
    | ParseOutcome.jsonError => some (llmFallback "Failed to parse LLM response")
    | ParseOutcome.otherError msg => some (llmFallback msg)
  else if provider = "anthropic" then
    match env.parse with
    | ParseOutcome.ok =>
        some { categories := anthropicCategories text, sentiment := env.sentiment,
               confidence := env.confidence, model := some "claude-3-opus", error := none }
    | ParseOutcome.jsonError => some (llmFallback "Failed to parse LLM response")
    | ParseOutcome.otherError msg => some (llmFallback msg)
  else
    none

/-- Entry of the user-model-preference cache `user_model_cache` (app.py lines
54, 321-324): the chosen model string plus an absolute expiry time. -/
structure PrefEntry where
  model : String
  expires_at : Int
deriving DecidableEq, Repr

/-- The `user_model_cache` dict (app.py line 54), keyed by user id. -/
abbrev PrefCache := List (String × PrefEntry)

/-- Dict lookup in `user_model_cache` (first match wins; inserts prepend). -/
def lookupPref (cache : PrefCache) (u : String) : Option PrefEntry :=
  (cache.find? (fun p => p.1 = u)).map (fun p => p.2)

/-- Embedding of `get_user_model_from_db(user_id)` (app.py lines 304-326).
The slow random DB query (`time.sleep`; `random.choice(["openai",
"anthropic"])`) is modelled by the oracle `db`: `Except.error m` means the
call raised with message `m`, `Except.ok model` means it returned `model`.
Returns the chosen model together with the updated cache, or propagates the
raised error. -/
def get_user_model_from_db (db : Except String String) (now : Int)
    (cache : PrefCache) (user_id : String) : Except String (String × PrefCache) :=
  match lookupPref cache user_id with
  | some e =>
      if e.expires_at > now then Except.ok (e.model, cache)
      else db.map (fun m => (m, (user_id, ⟨m, now + 24⟩) :: cache))
  | none => db.map (fun m => (m, (user_id, ⟨m, now + 24⟩) :: cache))

/-- Entry of the categorization cache `llm_categorization_cache` (app.py
lines 55, 200-203): the stored `result` (the value returned by
`mock_llm_categorization`, which can be Python `None`) plus an absolute
expiry time. -/
structure LLMEntry where
  result : Option TranscriptionCategories
  expires_at : Int
deriving DecidableEq, Repr

/-- The `llm_categorization_cache` dict (app.py line 55), keyed by the
normalized text prefix. -/
abbrev LLMCache := List (String × LLMEntry)

/-- Dict lookup in `llm_categorization_cache`. -/
def lookupLLM (cache : LLMCache) (k : String) : Option LLMEntry :=
  (cache.find? (fun p => p.1 = k)).map (fun p => p.2)

/-- Cache key of `categorize_transcription` (app.py line 180):
`transcription_string[:100].strip().lower()`. -/
def cacheKey (s : String) : String := pyLower (pyStrip (pyTake s 100))

/-- Observable side effects of one `categorize_transcription` call, recorded
in program order: the membership test on the categorization cache, the call
into `get_user_model_from_db`, the call into `mock_llm_categorization`, and
the cache store. -/
inductive CatEvent where
  | cacheRead
  | prefLookup
  | providerCall
  | cacheWrite
deriving DecidableEq, Repr

/-- The mutable module-level state touched by `categorize_transcription`:
the two caches (app.py lines 54-55). -/
structure CatState where
  llmCache : LLMCache
  prefCache : PrefCache
deriving DecidableEq, Repr

/-- Oracle for one `categorize_transcription` call: the draws of the mock
classifier and the outcome of the DB preference lookup. -/
structure CatEnv where
  llm : LLMEnv
  db : Except String String
deriving Repr

/-- Return value, updated state and event log of one
`categorize_transcription` call. -/
structure CatResult where
  result : Option TranscriptionCategories
  state : CatState
  events : List CatEvent
deriving DecidableEq, Repr

/-- Embedding of `categorize_transcription(transcription_string, user_id)`
(app.py lines 156-205).  Empty text short-circuits to the fixed fallback
(lines 166-171) before any cache or provider interaction.  Otherwise the
cache is consulted under `cacheKey`; on an unexpired hit the cached result
is returned unchanged (lines 183-185).  On a miss the provider defaults to
"openai" and, when `user_id` is truthy, is replaced by the DB preference,
any lookup error being caught and logged (lines 187-193); the mock
classifier is then called and its result cached for 24 hours (lines
195-205).  Python's `if user_id:` is falsy both for `None` and for the
empty string. -/
def categorize_transcription (env : CatEnv) (now : Int) (st : CatState)
    (transcription_string : String) (user_id : Option String) : CatResult :=
  if transcription_string = "" then
    { result := some { categories := ["General"], sentiment := "neutral",
                       confidence := 1/2, model := none, error := none },
      state := st, events := [] }
  else
    let key := cacheKey transcription_string
    let hit := match lookupLLM st.llmCache key with
      | some e => if e.expires_at > now then some e.result else none
      | none => none
    match hit with
    | some r => { result := r, state := st, events := [CatEvent.cacheRead] }
    | none =>
        let step : String × PrefCache × List CatEvent :=
          match user_id with
          | some u =>
              if u = "" then ("openai", st.prefCache, [])
              else
                match get_user_model_from_db env.db now st.prefCache u with
                | Except.ok (m, pc) => (m, pc, [CatEvent.prefLookup])
                | Except.error _ => ("openai", st.prefCache, [CatEvent.prefLookup])
          | none => ("openai", st.prefCache, [])
        let provider := step.1
        let r := mock_llm_categorization env.llm transcription_string provider
        { result := r,
          state := { llmCache := (key, ⟨r, now + 24⟩) :: st.llmCache,
                     prefCache := step.2.1 },
          events := [CatEvent.cacheRead] ++ step.2.2 ++ [CatEvent.providerCall, CatEvent.cacheWrite] }

/-- One transcription job record (`class TranscriptionJob`, app.py lines
40-50, and the dict created at lines 398-408).  The dict created by
`transcribe_audio` has no `categories` key; an absent key and an assigned
Python `None` are both modelled as `none`.  `user_id` is the caller-supplied
owner stored at creation (line 407). -/
structure Job where
  id : String
  status : JobStatus
  progress : Int
  created_at : Int
  updated_at : Int
  completed_at : Option Int
  result : Option String
  error : Option String
  categories : Option TranscriptionCategories
  user_id : Option String
deriving DecidableEq, Repr

/-- The job entry inserted into `job_queue` by `transcribe_audio` (app.py
lines 398-408): status PENDING, progress 0, all optional fields empty. -/
def initialJob (job_id : String) (user_id : Option String) (t : Int) : Job :=
  { id := job_id, status := JobStatus.pending, progress := 0,
    created_at := t, updated_at := t, completed_at := none,
    result := none, error := none, categories := none, user_id := user_id }

/-- Progress written by simulated work step `k` (1-based) of
`process_transcription` (app.py line 119):
`10 + int((step + 1) * (80 / processing_steps))` with `processing_steps = 3`.
Python evaluates `80 / 3` in binary floating point and `int` truncates
toward zero; for k = 1, 2, 3 the float products are 26.666666666666668,
53.333333333333336 and 80.00000000000001, truncating to 26, 53 and 80 —
exactly the values of the integer division `(k * 80) / 3`, which we use
here. -/
def progressFormula (k : Nat) : Int := 10 + ((k : Int) * 80) / 3

/-- The three canned transcriptions of the stubbed transcription provider
(`random.choice`, app.py lines 125-129). -/
def transcripts : List String :=
  ["I've always been fascinated by cars, especially classic muscle cars from the 60s and 70s. The raw power and beautiful design of those vehicles is just incredible.",
   "Bald eagles are such majestic creatures. I love watching them soar through the sky and dive down to catch fish. Their white heads against the blue sky is a sight I'll never forget.",
   "Deep sea diving opens up a whole new world of exploration. The mysterious creatures and stunning coral reefs you encounter at those depths are unlike anything else on Earth."]

/-- Pick of `random.choice` among the three canned transcriptions. -/
def chooseTranscript (i : Fin 3) : String :=
  match i with
  | ⟨0, _⟩ => transcripts.getD 0 ""
  | ⟨1, _⟩ => transcripts.getD 1 ""
  | ⟨2, _⟩ => transcripts.getD 2 ""

/-- Environment of one `process_transcription` run: whether the bounded
random delay of simulated work step `k` raises (`time.sleep`, app.py line
117; the stubbed external work may raise, spec section 6), which canned
transcription `random.choice` picks (lines 125-129), the oracle of the
`categorize_transcription` call, and the successive `datetime.now()`
readings. -/
structure WorkerEnv where
  stepFail : Fin 3 → Option String
  transcript : Fin 3
  cat : CatEnv
  now : Nat → Int

/-- The three writes of the exception handler of `process_transcription`
(app.py lines 148-152): status FAILED, then the error message, then
`updated_at`.  Progress is not touched.  Returns the successive states of
the job entry, one per atomic dict write. -/
def failWrites (msg : String) (t : Int) (j : Job) : List Job :=
  let j1 := { j with status := JobStatus.failed }
  let j2 := { j1 with error := some msg }
  let j3 := { j2 with updated_at := t }
  [j1, j2, j3]

/-- Result of one `process_transcription` run: the successive states of
`job_queue[job_id]` (head = state at creation, then one entry per atomic
dict write performed by the worker), the final cache state, the event log of
the `categorize_transcription` call, and the Python return value. -/
structure WorkerRun where
  trace : List Job
  finalCat : CatState
  events : List CatEvent
  retVal : Option String

/-- Embedding of `process_transcription(job_id, audio_data)` (app.py lines
95-153), unrolled over the three simulated work steps.  Each element of the
returned trace (after the head `j0`) is the job entry after one atomic dict
write, in program order: the PROCESSING/progress-10/updated_at writes (lines
108-110), then per successful step the progress and updated_at writes (lines
120-121), then — if no step raised — the six completion writes (lines
136-141).  If the sleep of step `k` raises, the exception handler appends
its three writes (lines 148-152) and the run stops, returning `None`.  The
categorization call at line 133 passes only the transcription: `user_id` is
left at its Python default `None`. -/
def process_transcription (env : WorkerEnv) (st : CatState) (j0 : Job) : WorkerRun :=
  let j1 := { j0 with status := JobStatus.processing }
  let j2 := { j1 with progress := 10 }
  let j3 := { j2 with updated_at := env.now 0 }
  match env.stepFail 0 with
  | some msg =>
      { trace := [j0, j1, j2, j3] ++ failWrites msg (env.now 1) j3,
        finalCat := st, events := [], retVal := none }
  | none =>
  let j4 := { j3 with progress := progressFormula 1 }
  let j5 := { j4 with updated_at := env.now 1 }
  match env.stepFail 1 with
  | some msg =>
      { trace := [j0, j1, j2, j3, j4, j5] ++ failWrites msg (env.now 2) j5,
        finalCat := st, events := [], retVal := none }
  | none =>
  let j6 := { j5 with progress := progressFormula 2 }
  let j7 := { j6 with updated_at := env.now 2 }
  match env.stepFail 2 with
  | some msg =>
      { trace := [j0, j1, j2, j3, j4, j5, j6, j7] ++ failWrites msg (env.now 3) j7,
        finalCat := st, events := [], retVal := none }
  | none =>
  let j8 := { j7 with progress := progressFormula 3 }
  let j9 := { j8 with updated_at := env.now 3 }
  let transcription := chooseTranscript env.transcript
  let c := categorize_transcription env.cat (env.now 4) st transcription none
  let jA := { j9 with status := JobStatus.completed }
  let jB := { jA with progress := 100 }
  let jC := { jB with result := some transcription }
  let jD := { jC with categories := c.result }
  let jE := { jD with completed_at := some (env.now 5) }
  let jF := { jE with updated_at := env.now 6 }
  { trace := [j0, j1, j2, j3, j4, j5, j6, j7, j8, j9, jA, jB, jC, jD, jE, jF],
    finalCat := c.state, events := c.events, retVal := some transcription }

/-- Status sequence of a worker run, one entry per trace state. -/
def statusTrace (r : WorkerRun) : List JobStatus :=
  r.trace.map (fun j => j.status)

/-- Allowed single-write status change: unchanged, PENDING to PROCESSING, or
PROCESSING to a terminal state. -/
def statusOk (a b : JobStatus) : Bool :=
  a = b || (a = JobStatus.pending && b = JobStatus.processing) ||
    (a = JobStatus.processing && (b = JobStatus.completed || b = JobStatus.failed))

/-- Every adjacent pair of the status sequence is an allowed change. -/
def chainOk : List JobStatus → Bool
  | [] => true
  | [_] => true
  | a :: b :: r => statusOk a b && chainOk (b :: r)

/-- COMPLETED and FAILED are the terminal statuses. -/
def isTerminal (s : JobStatus) : Bool :=
  s = JobStatus.completed || s = JobStatus.failed

/-- All entries of the list equal `s`. -/
def frozenFrom (s : JobStatus) : List JobStatus → Bool
  | [] => true
  | b :: r => b = s && frozenFrom s r

/-- Once a terminal status appears in the sequence, every later entry is
that same status. -/
def terminalFrozen : List JobStatus → Bool
  | [] => true
  | a :: r => if isTerminal a then frozenFrom a r else terminalFrozen r

/-- Exactly one of (result together with categories) and (error) is
populated. -/
def exactlyOnePopulated (j : Job) : Bool :=
  let both := j.result.isSome && j.categories.isSome
  (both || j.error.isSome) && !(both && j.error.isSome)

/-- Per-write progress discipline between two adjacent trace states: while
the job is PENDING or PROCESSING the write does not decrease progress, and a
write that shows status FAILED does not change progress. -/
def progressPairOk (a b : Job) : Bool :=
  (!(a.status = JobStatus.pending || a.status = JobStatus.processing) ||
      decide (a.progress ≤ b.progress)) &&
    (!(b.status = JobStatus.failed) || decide (b.progress = a.progress))

/-- Every adjacent pair of trace states obeys the progress discipline. -/
def progressPairsOk : List Job → Bool
  | [] => true
  | [_] => true
  | a :: b :: r => progressPairOk a b && progressPairsOk (b :: r)

/-- Progress is an integer between 0 and 100 in every trace state. -/
def progressRangeOk (l : List Job) : Bool :=
  l.all (fun j => decide (0 ≤ j.progress) && decide (j.progress ≤ 100))

/-- A concrete categorization oracle: both external collaborators succeed
(the DB draw is "anthropic", the classifier draws "positive" / 0.8). -/
def envOk : CatEnv :=
  { llm := { sentiment := "positive", confidence := 4/5, parse := ParseOutcome.ok },
    db := Except.ok "anthropic" }

/-- A concrete worker environment where nothing fails and `random.choice`
picks the first canned transcription. -/
def envHappy : WorkerEnv :=
  { stepFail := fun _ => none, transcript := ⟨0, by decide⟩, cat := envOk,
    now := fun _ => 0 }

/-- A concrete worker environment where the delay of the first simulated
work step raises. -/
def envFailStep0 : WorkerEnv :=
  { stepFail := fun k => if k.val = 0 then some "boom" else none,
    transcript := ⟨0, by decide⟩, cat := envOk, now := fun _ => 0 }

/-- Empty module-level cache state. -/
def catState0 : CatState := { llmCache := [], prefCache := [] }

/-- Preference cache holding an unexpired "anthropic" choice for user
"alice". -/
def prefAnthropic : PrefCache := [("alice", ⟨"anthropic", 1000⟩)]

/-- Default job used with `List.getD` / `List.getLastD`. -/
def dJob : Job := initialJob "" none 0

/-- Address of a live Python dict object holding a job record. -/
abbrev Addr := Nat

/-- Heap of live job dict objects: the value at an address is the current
field content of that object.  A worker write mutates the object in place. -/
abbrev JobHeap := List Job

/-- In-place mutation of the dict object at address `a` (one worker write,
e.g. app.py line 108). -/
def heapWrite (h : JobHeap) (a : Addr) (j : Job) : JobHeap := h.set a j

/-- The `job_queue` dict (app.py line 53) maps job ids to the stored dict
objects, i.e. to heap addresses. -/
abbrev JobQueue := List (String × Addr)

/-- Embedding of the fetch-one-job handler `get_job_status(job_id)` (app.py
lines 431-454).  The handler looks up the stored dict and responds with
a jsonify of the double-star unpacking of the job dict, which makes a
fresh top-level copy of the job's fields at fetch time, so the response is a
job VALUE, not an address into the heap.  (The constant `version` field of
the response is omitted here.) -/
def get_job_status (q : JobQueue) (h : JobHeap) (job_id : String) : Option Job :=
  match q.find? (fun p => p.1 = job_id) with
  | none => none
  | some p => h.get? p.2

/-- Embedding of the list-all-jobs handler `get_all_jobs` (app.py lines
456-477).  `jobs_list = list(job_queue.values())` collects the stored dict
objects themselves — addresses, not copies — and the response is rendered
from those live objects. -/
def get_all_jobs (q : JobQueue) : List Addr := q.map (fun p => p.2)

/-- What a reader observes through the object references returned by
`get_all_jobs` when the response is rendered against heap `h`. -/
def readJobRefs (h : JobHeap) (refs : List Addr) : List (Option Job) :=
  refs.map (fun a => h.get? a)

/-- The job dict of job "job-1" after the worker's first write (status set
to PROCESSING, app.py line 108). -/
def jProc1 : Job := { initialJob "job-1" none 0 with status := JobStatus.processing }

theorem mock_openai_isSome (env : LLMEnv) (s : String) :
    (mock_llm_categorization env s "openai").isSome = true := by
  cases h : env.parse <;> simp [mock_llm_categorization, h]

theorem mock_anthropic_isSome (env : LLMEnv) (s : String) :
    (mock_llm_categorization env s "anthropic").isSome = true := by
  cases h : env.parse <;> simp [mock_llm_categorization, h]

theorem aux_categorize_noUser (env : CatEnv) (now : Int) (st : CatState) (s : String) :
    (CatEvent.prefLookup ∉ (categorize_transcription env now st s none).events) ∧
    (categorize_transcription env now st s none).state.prefCache = st.prefCache := by
  unfold categorize_transcription
  by_cases hs : s = ""
  · simp [hs]
  · simp only [hs, if_neg, if_false]
    rcases hl : lookupLLM st.llmCache (cacheKey s) with _ | e
    · simp [hl]
    · by_cases hexp : e.expires_at > now <;> simp [hl, hexp]

theorem aux_categorize_noUser_isSome (env : CatEnv) (now : Int) (st : CatState) (s : String)
    (hwf : ∀ k e, lookupLLM st.llmCache k = some e → e.result.isSome = true) :
    ((categorize_transcription env now st s none).result).isSome = true := by
  unfold categorize_transcription
  by_cases hs : s = ""
  · simp [hs]
  · simp only [hs, if_neg, if_false]
    rcases hl : lookupLLM st.llmCache (cacheKey s) with _ | e
    · simp [hl, mock_openai_isSome]
    · by_cases hexp : e.expires_at > now
      · simpa [hl, hexp] using hwf _ _ hl
      · simp [hl, hexp, mock_openai_isSome]

/-- C8: For every call of categorization with empty text, the returned
result is exactly (categories ["General"], sentiment "neutral", confidence
0.5), and both caches and both providers are untouched — no cache read, no
cache write, no provider or preference-store call (app.py lines 166-171:
the empty-text guard returns before any cache or provider interaction). -/
theorem C8_empty_text_fixed_result (env : CatEnv) (t : Int) (st : CatState)
    (uid : Option String) :
    categorize_transcription env t st "" uid =
      { result := some { categories := ["General"], sentiment := "neutral",
                         confidence := 1/2, model := none, error := none },
        state := st, events := [] } := rfl

/-- C10: `mock_llm_categorization` called with a provider string other than
"openai" or "anthropic" falls through both branches and implicitly returns
Python `None` (modelled as `none`), outside its declared
`TranscriptionCategories` return type; a well-formed result (`isSome`) is
guaranteed whenever the provider is "openai" or "anthropic". -/
theorem C10_unknown_provider_returns_none (env : LLMEnv) (text provider : String)
    (h1 : provider ≠ "openai") (h2 : provider ≠ "anthropic") :
    mock_llm_categorization env text provider = none ∧
    (∀ p, p = "openai" ∨ p = "anthropic" →
      (mock_llm_categorization env text p).isSome = true) := by
  constructor
  · simp [mock_llm_categorization, h1, h2]
  · rintro p (rfl | rfl)
    · exact mock_openai_isSome env text
    · exact mock_anthropic_isSome env text

/-- Witness for C10 at the concrete provider "gemini". -/
theorem C10_witness :
    mock_llm_categorization envOk.llm "hello" "gemini" = none ∧
    (mock_llm_categorization envOk.llm "hello" "openai").isSome = true :=
  ⟨(C10_unknown_provider_returns_none envOk.llm "hello" "gemini"
      (by decide) (by decide)).1,
   (C10_unknown_provider_returns_none envOk.llm "hello" "gemini"
      (by decide) (by decide)).2 "openai" (Or.inl rfl)⟩

/-- C9 counterexample: the claim says every fetch returns a snapshot that
later worker mutations cannot alter, and cites both handlers; but
`get_all_jobs` returns the live stored dict objects
(`list(job_queue.values())`, app.py line 471).  Concretely: with one PENDING
job stored, a reader lists all jobs, then the job's worker performs its
first write (status to PROCESSING); the content the reader observes through
the returned objects is now different from what it was at fetch time. -/
theorem C9_counterexample :
    readJobRefs (heapWrite [initialJob "job-1" none 0] 0 jProc1)
        (get_all_jobs [("job-1", 0)]) ≠
      readJobRefs [initialJob "job-1" none 0] (get_all_jobs [("job-1", 0)]) := by
  decide

/-- C9 amended: fetching a single job by id (`get_job_status`) responds with
a fresh top-level copy of the job's fields made at fetch time — a value a
later heap write cannot alter; but listing all jobs (`get_all_jobs`) hands
back the live stored objects, through which a subsequent worker write is
visible: rendering the same returned references after the write yields a
different observation. -/
theorem C9_single_fetch_copies_list_is_live (job_id : String) (j jnew : Job)
    (hne : jnew ≠ j) :
    get_job_status [(job_id, 0)] [j] job_id = some j ∧
    readJobRefs (heapWrite [j] 0 jnew) (get_all_jobs [(job_id, 0)]) ≠
      readJobRefs [j] (get_all_jobs [(job_id, 0)]) := by
  constructor
  · simp [get_job_status]
  · simp [readJobRefs, get_all_jobs, heapWrite]
    exact hne

/-- Witness for the amended C9 at a concrete job and mutation. -/
theorem C9_witness :
    jProc1 ≠ initialJob "job-1" none 0 ∧
    (get_job_status [("job-1", 0)] [initialJob "job-1" none 0] "job-1" =
        some (initialJob "job-1" none 0) ∧
      readJobRefs (heapWrite [initialJob "job-1" none 0] 0 jProc1)
          (get_all_jobs [("job-1", 0)]) ≠
        readJobRefs [initialJob "job-1" none 0] (get_all_jobs [("job-1", 0)])) :=
  ⟨by decide,
   C9_single_fetch_copies_list_is_live "job-1" (initialJob "job-1" none 0) jProc1
     (by decide)⟩

/-- C2 counterexample: the claim demands that whenever the status is
COMPLETED or FAILED, exactly one of (result+categories) / error is
populated; but the worker updates the shared job dict field by field with no
lock, so right after the status write of the exception handler (app.py line
149) and before the error write (line 150) the job is FAILED with result,
categories and error all empty.  The trace state at index 4 of a run whose
first step delay raises is exactly that torn state. -/
theorem C2_counterexample :
    isTerminal ((process_transcription envFailStep0 catState0
        (initialJob "job-1" none 0)).trace.getD 4 dJob).status = true ∧
    exactlyOnePopulated ((process_transcription envFailStep0 catState0
        (initialJob "job-1" none 0)).trace.getD 4 dJob) = false := by
  decide

/-- C7 counterexample: step 1 of the worker writes progress
`10 + int(1 * (80 / 3)) = 36` (app.py line 119, truncating float division),
not the claimed `10 + round(1 * 80 / 3) = 37`. -/
theorem C7_counterexample :
    ((process_transcription envHappy catState0
        (initialJob "job-1" none 0)).trace.getD 4 dJob).progress = 36 ∧
    (10 + round (((1 : ℚ) * 80) / 3) : ℤ) ≠ 36 := by
  constructor
  · rfl
  · have h : round (((1 : ℚ) * 80) / 3) = 27 := by
      norm_num [round_eq]
    rw [h]
    decide

/-- C3: for every created job, across the whole write sequence of its worker
run, status transitions only along PENDING to PROCESSING to COMPLETED or
FAILED — never from PROCESSING back to PENDING — and once a terminal status
is reached it never changes again.  This holds for every environment: every
outcome of the step delays, of `random.choice`, of the clock and of the
categorization oracles. -/
theorem C3_status_transitions (env : WorkerEnv) (st : CatState) (id : String)
    (uid : Option String) (t : Int) :
    chainOk (statusTrace (process_transcription env st (initialJob id uid t))) = true ∧
    terminalFrozen (statusTrace (process_transcription env st (initialJob id uid t))) = true := by
  rcases h0 : env.stepFail 0 with _ | m0 <;>
    rcases h1 : env.stepFail 1 with _ | m1 <;>
      rcases h2 : env.stepFail 2 with _ | m2 <;>
        refine ⟨?_, ?_⟩ <;>
          simp only [process_transcription, h0, h1, h2] <;>
            rfl

/-- C4: for every created job and every environment, progress stays an
integer in 0..100 in every trace state, every write performed while the job
is PENDING or PROCESSING does not decrease progress, and the writes of the
failure handler (status FAILED, error, updated_at) leave progress at its
last successfully written value. -/
theorem C4_progress_discipline (env : WorkerEnv) (st : CatState) (id : String)
    (uid : Option String) (t : Int) :
    progressRangeOk (process_transcription env st (initialJob id uid t)).trace = true ∧
    progressPairsOk (process_transcription env st (initialJob id uid t)).trace = true := by
  rcases h0 : env.stepFail 0 with _ | m0 <;>
    rcases h1 : env.stepFail 1 with _ | m1 <;>
      rcases h2 : env.stepFail 2 with _ | m2 <;>
        refine ⟨?_, ?_⟩ <;>
          simp only [process_transcription, h0, h1, h2] <;>
            rfl

/-- C2 amended: once the worker's terminal update block has completed — i.e.
in the final state of the job's write sequence — exactly one of (result
together with categories) and (error) is populated, never both and never
neither.  (As C2's counterexample shows, the unqualified claim fails on the
transient states between the individual unlocked dict writes of the
terminal block.)  The hypothesis asks that every already-cached
categorization value is non-None, which holds for every cache the program
itself can build. -/
theorem C2_final_state_exactly_one (env : WorkerEnv) (st : CatState) (id : String)
    (uid : Option String) (t : Int)
    (hwf : ∀ k e, lookupLLM st.llmCache k = some e → e.result.isSome = true) :
    isTerminal ((process_transcription env st (initialJob id uid t)).trace.getLastD dJob).status = true ∧
    exactlyOnePopulated ((process_transcription env st (initialJob id uid t)).trace.getLastD dJob) = true := by
  have hcat := aux_categorize_noUser_isSome env.cat (env.now 4) st
    (chooseTranscript env.transcript) hwf
  rcases h0 : env.stepFail 0 with _ | m0 <;>
    rcases h1 : env.stepFail 1 with _ | m1 <;>
      rcases h2 : env.stepFail 2 with _ | m2 <;>
        refine ⟨?_, ?_⟩ <;>
          simp [process_transcription, h0, h1, h2, failWrites, exactlyOnePopulated,
                isTerminal, initialJob, hcat]

/-- Witness for the amended C2 at a concrete environment and empty caches. -/
theorem C2_witness :
    isTerminal ((process_transcription envHappy catState0
        (initialJob "job-1" none 0)).trace.getLastD dJob).status = true ∧
    exactlyOnePopulated ((process_transcription envHappy catState0
        (initialJob "job-1" none 0)).trace.getLastD dJob) = true :=
  C2_final_state_exactly_one envHappy catState0 "job-1" none 0
    (by intro k e h; simp [lookupLLM, catState0] at h)

/-- C7 amended: with N = 3 steps and no step failure, step k writes
progress `10 + int(k * (80 / 3))` — integer truncation, not rounding — so
the written values are 36, 63 and 90: they advance from 10 up to exactly 90
at the final step, but step 1 writes 36 where the claimed
`10 + round(k*80/N)` formula would give 37. -/
theorem C7_step_progress_values (env : WorkerEnv) (st : CatState) (id : String)
    (uid : Option String) (t : Int) (h : ∀ k, env.stepFail k = none) :
    ((process_transcription env st (initialJob id uid t)).trace.getD 4 dJob).progress = 36 ∧
    ((process_transcription env st (initialJob id uid t)).trace.getD 6 dJob).progress = 63 ∧
    ((process_transcription env st (initialJob id uid t)).trace.getD 8 dJob).progress = 90 := by
  have h0 := h 0
  have h1 := h 1
  have h2 := h 2
  refine ⟨?_, ?_, ?_⟩ <;> simp only [process_transcription, h0, h1, h2] <;> rfl

/-- Witness for the amended C7 at a concrete environment. -/
theorem C7_witness :
    ((process_transcription envHappy catState0
        (initialJob "job-1" none 0)).trace.getD 4 dJob).progress = 36 ∧
    ((process_transcription envHappy catState0
        (initialJob "job-1" none 0)).trace.getD 6 dJob).progress = 63 ∧
    ((process_transcription envHappy catState0
        (initialJob "job-1" none 0)).trace.getD 8 dJob).progress = 90 :=
  C7_step_progress_values envHappy catState0 "job-1" none 0 (fun _ => rfl)

/-- C1 counterexample: the worker calls `categorize_transcription` with only
the transcription (app.py line 133), never passing the job's stored owner.
Concretely: the job's owner is "alice", whose preference both sits unexpired
in the preference cache as "anthropic" and would be returned as "anthropic"
by the DB oracle; yet the run never consults the preference store (no
prefLookup event) and the completed job's categories carry the model tag of
the default "openai" provider ("gpt-4"), not Anthropic's. -/
theorem C1_counterexample :
    (CatEvent.prefLookup ∉ (process_transcription envHappy { llmCache := [], prefCache := prefAnthropic }
        (initialJob "job-1" (some "alice") 0)).events) ∧
    ((process_transcription envHappy { llmCache := [], prefCache := prefAnthropic }
        (initialJob "job-1" (some "alice") 0)).trace.getLastD dJob).categories =
      some { categories := ["Automotive"], sentiment := "positive",
             confidence := 4/5, model := some "gpt-4", error := none } := by
  exact ⟨by decide, rfl⟩

/-- C1 amended: in step 4 of the worker algorithm the worker invokes
`categorize_transcription` with the produced text only; the `user_id`
argument is left at its Python default None, so the preference store is
never consulted on the job's behalf (no prefLookup event, preference cache
unchanged) and the owner's resolved provider preference cannot influence
categorization. -/
theorem C1_worker_ignores_owner (env : WorkerEnv) (st : CatState) (id : String)
    (uid : Option String) (t : Int) :
    (CatEvent.prefLookup ∉ (process_transcription env st (initialJob id uid t)).events) ∧
    (process_transcription env st (initialJob id uid t)).finalCat.prefCache =
      st.prefCache := by
  have hc := aux_categorize_noUser env.cat (env.now 4) st (chooseTranscript env.transcript)
  rcases h0 : env.stepFail 0 with _ | m0 <;>
    rcases h1 : env.stepFail 1 with _ | m1 <;>
      rcases h2 : env.stepFail 2 with _ | m2 <;>
        refine ⟨?_, ?_⟩ <;>
          simp [process_transcription, h0, h1, h2, hc.1, hc.2]

theorem aux_categorize_hit (env : CatEnv) (now : Int) (st : CatState) (s : String)
    (u : Option String) (hs : s ≠ "") (e : LLMEntry)
    (hl : lookupLLM st.llmCache (cacheKey s) = some e)
    (hexp : e.expires_at > now) :
    categorize_transcription env now st s u =
      { result := e.result, state := st, events := [CatEvent.cacheRead] } := by
  unfold categorize_transcription
  simp [hs, hl, hexp]

theorem aux_categorize_miss_caches (env : CatEnv) (now : Int) (st : CatState)
    (s : String) (u : Option String) (hs : s ≠ "")
    (hmiss : ∀ e, lookupLLM st.llmCache (cacheKey s) = some e → e.expires_at ≤ now) :
    (categorize_transcription env now st s u).state.llmCache =
      (cacheKey s, ⟨(categorize_transcription env now st s u).result, now + 24⟩)
        :: st.llmCache := by
  unfold categorize_transcription
  simp only [if_neg hs]
  rcases hl : lookupLLM st.llmCache (cacheKey s) with _ | e
  · simp [hl]
  · have hne : ¬ e.expires_at > now := not_lt.mpr (hmiss e hl)
    simp [hl, hne]

/-- C5: if categorization is invoked twice within 24 hours on two non-empty
texts whose 100-character prefixes are equal, and the first call misses the
cache (no unexpired entry for its key), then the second call returns exactly
the result the first call cached — identical categories, sentiment and
confidence — and performs only the cache read: no provider call, no
preference-store call, no cache write.  This holds for any user ids and any
oracle outcomes of the two calls. -/
theorem C5_second_call_served_from_cache (env1 env2 : CatEnv) (t1 t2 : Int)
    (st : CatState) (s1 s2 : String) (u1 u2 : Option String)
    (h1 : s1 ≠ "") (h2 : s2 ≠ "")
    (hpre : pyTake s1 100 = pyTake s2 100)
    (hmiss : ∀ e, lookupLLM st.llmCache (cacheKey s1) = some e → e.expires_at ≤ t1)
    (ht : t2 < t1 + 24) :
    (categorize_transcription env2 t2
        (categorize_transcription env1 t1 st s1 u1).state s2 u2).result =
      (categorize_transcription env1 t1 st s1 u1).result ∧
    (categorize_transcription env2 t2
        (categorize_transcription env1 t1 st s1 u1).state s2 u2).events =
      [CatEvent.cacheRead] := by
  have hk : cacheKey s2 = cacheKey s1 :=
    (congrArg (fun x => pyLower (pyStrip x)) hpre).symm
  have hc1 := aux_categorize_miss_caches env1 t1 st s1 u1 h1 hmiss
  have hlk : lookupLLM (categorize_transcription env1 t1 st s1 u1).state.llmCache
      (cacheKey s2) =
      some ⟨(categorize_transcription env1 t1 st s1 u1).result, t1 + 24⟩ := by
    rw [hc1, hk]
    simp [lookupLLM, List.find?]
  have hhit := aux_categorize_hit env2 t2
    (categorize_transcription env1 t1 st s1 u1).state s2 u2 h2
    ⟨(categorize_transcription env1 t1 st s1 u1).result, t1 + 24⟩ hlk
    (by show t1 + 24 > t2; omega)
  rw [hhit]
  exact ⟨rfl, rfl⟩

/-- Witness for C5 at a concrete pair of calls: same text "hello", first
call at time 0 on empty caches, second at time 23. -/
theorem C5_witness :
    (categorize_transcription envOk 23
        (categorize_transcription envOk 0 catState0 "hello" none).state
        "hello" none).result =
      (categorize_transcription envOk 0 catState0 "hello" none).result ∧
    (categorize_transcription envOk 23
        (categorize_transcription envOk 0 catState0 "hello" none).state
        "hello" none).events = [CatEvent.cacheRead] :=
  C5_second_call_served_from_cache envOk envOk 0 23 catState0 "hello" "hello"
    none none (by decide) (by decide) rfl
    (by intro e h; simp [lookupLLM, catState0] at h) (by omega)

/-- C6: provider-level failures are recovered locally and never propagated.
With a preference-store lookup that raises (DB oracle in error) and no
usable cached preference, `categorize_transcription` falls back to the
default provider "openai" (app.py lines 188-193) and still returns a result
(a total value, never a raised exception).  A parse error inside a provider
classifier is converted to the fixed fallback result carrying an error tag,
for either provider (lines 285-293).  And a worker whose own steps do not
fail always drives its job to COMPLETED — never FAILED — whatever the
categorization oracles (DB errors, parse errors) do. -/
theorem C6_provider_failures_recovered (env : CatEnv) (m : String) (t : Int)
    (st : CatState) (s u : String) (wenv : WorkerEnv) (stw : CatState)
    (id : String) (uid : Option String) (t0 : Int)
    (hdb : env.db = Except.error m)
    (hs : s ≠ "") (hu : u ≠ "")
    (hmiss : ∀ e, lookupLLM st.llmCache (cacheKey s) = some e → e.expires_at ≤ t)
    (hpref : ∀ e, lookupPref st.prefCache u = some e → e.expires_at ≤ t)
    (hsteps : ∀ k, wenv.stepFail k = none) :
    (categorize_transcription env t st s (some u)).result =
      mock_llm_categorization env.llm s "openai" ∧
    ((categorize_transcription env t st s (some u)).result).isSome = true ∧
    (∀ p, p = "openai" ∨ p = "anthropic" →
      mock_llm_categorization { env.llm with parse := ParseOutcome.jsonError } s p =
        some (llmFallback "Failed to parse LLM response")) ∧
    ((process_transcription wenv stw (initialJob id uid t0)).trace.getLastD dJob).status =
      JobStatus.completed := by
  have hres : (categorize_transcription env t st s (some u)).result =
      mock_llm_categorization env.llm s "openai" := by
    unfold categorize_transcription
    simp only [if_neg hs]
    rcases hl : lookupLLM st.llmCache (cacheKey s) with _ | e
    · unfold get_user_model_from_db
      rcases hp : lookupPref st.prefCache u with _ | pe
      · simp [hl, hp, hdb, hu, Except.map]
      · have hne : ¬ pe.expires_at > t := not_lt.mpr (hpref pe hp)
        simp [hl, hp, hdb, hu, hne, Except.map]
    · have hne : ¬ e.expires_at > t := not_lt.mpr (hmiss e hl)
      unfold get_user_model_from_db
      rcases hp : lookupPref st.prefCache u with _ | pe
      · simp [hl, hne, hp, hdb, hu, Except.map]
      · have hne2 : ¬ pe.expires_at > t := not_lt.mpr (hpref pe hp)
        simp [hl, hne, hp, hdb, hu, hne2, Except.map]
  refine ⟨hres, ?_, ?_, ?_⟩
  · rw [hres]
    exact mock_openai_isSome env.llm s
  · rintro p (rfl | rfl) <;> rfl
  · have h0 := hsteps 0
    have h1 := hsteps 1
    have h2 := hsteps 2
    simp only [process_transcription, h0, h1, h2]
    rfl

/-- Witness for C6 at a concrete failing DB oracle, user "alice", empty
caches and a concrete worker run. -/
theorem C6_witness :
    (categorize_transcription { llm := envOk.llm, db := Except.error "db down" }
        0 catState0 "hello" (some "alice")).result =
      mock_llm_categorization envOk.llm "hello" "openai" ∧
    ((categorize_transcription { llm := envOk.llm, db := Except.error "db down" }
        0 catState0 "hello" (some "alice")).result).isSome = true ∧
    (∀ p, p = "openai" ∨ p = "anthropic" →
      mock_llm_categorization { envOk.llm with parse := ParseOutcome.jsonError }
          "hello" p =
        some (llmFallback "Failed to parse LLM response")) ∧
    ((process_transcription envHappy catState0
        (initialJob "job-1" none 0)).trace.getLastD dJob).status =
      JobStatus.completed :=
  C6_provider_failures_recovered { llm := envOk.llm, db := Except.error "db down" }
    "db down" 0 catState0 "hello" "alice" envHappy catState0 "job-1" none 0
    rfl (by decide) (by decide)
    (by intro e h; simp [lookupLLM, catState0] at h)
    (by intro e h; simp [lookupPref, catState0] at h)
    (fun _ => rfl)
